import Mathlib

/-!
Verification of the continuous-loop core of the persistent-code-context
extension (`src/services/continuousLoop.ts`, which also bundles the
`FileService`, `ContextSnapshotCollector` and `PRManager` classes).

Modelling conventions, shared by every definition below:
* money is modelled in integer cents (the source uses USD floats; the only
  cost appearing in the loop is the fixed per-iteration estimate 0.05 USD,
  i.e. 5 cents, and the cap comparison `totalCost >= maxCost` is invariant
  under the dollars-to-cents scaling);
* wall-clock time is modelled in integer milliseconds;
* JavaScript strings are modelled by Lean `String`; a nullable / optional
  string is `Option String`, and JS truthiness of a string (`!s`) is
  "absent or empty";
* external collaborators (gh, git, the AI service) are modelled by explicit
  per-iteration inputs: what they would have returned is a parameter, and
  the side effects the loop performs through them are recorded in an
  explicit world state.
-/

/-! ## PRManager: check-status buckets (`getPRStatus`, lines 664-698) -/

/-- The `checkStates` record built by `PRManager.getPRStatus`. -/
structure CheckStates where
  pending : Nat
  success : Nat
  failed : Nat
deriving DecidableEq

/-- One raw check record from `gh pr view --json checks`: a `status` string
and a nullable `conclusion` string. -/
structure RawCheck where
  status : String
  conclusion : Option String
deriving DecidableEq

/-- JS truthiness test `!check.conclusion`: true when the conclusion is
absent (`null`/`undefined`) or the empty string. -/
def conclusionFalsy : Option String → Bool
  | none => true
  | some s => s.isEmpty

/-- The bucket a raw check is counted into by `getPRStatus`. -/
inductive CheckBucket
  | success
  | pending
  | failed
deriving DecidableEq

/-- The if/else-if/else cascade of `getPRStatus` (lines 677-684):
`conclusion === 'success' || status === 'completed'` counts as success;
otherwise `status === 'in_progress' || status === 'queued' || !conclusion`
counts as pending; every remaining record counts as failed. -/
def classifyCheck (c : RawCheck) : CheckBucket :=
  if c.conclusion = some "success" ∨ c.status = "completed" then
    CheckBucket.success
  else if c.status = "in_progress" ∨ c.status = "queued" ∨ conclusionFalsy c.conclusion = true then
    CheckBucket.pending
  else
    CheckBucket.failed

/-- One `checkStates.<bucket>++` step of the loop in `getPRStatus`. -/
def bumpCheckStates (acc : CheckStates) (c : RawCheck) : CheckStates :=
  match classifyCheck c with
  | CheckBucket.success => { acc with success := acc.success + 1 }
  | CheckBucket.pending => { acc with pending := acc.pending + 1 }
  | CheckBucket.failed => { acc with failed := acc.failed + 1 }

/-- The whole `for (const check of parsed.checks)` loop of `getPRStatus`,
starting from `\x7b pending: 0, success: 0, failed: 0 \x7d`. -/
def computeCheckStates (checks : List RawCheck) : CheckStates :=
  checks.foldl bumpCheckStates (CheckStates.mk 0 0 0)

/-! ## PRManager: the polling loop (`waitForChecks`, lines 621-659)

The source loop is
```
while (Date.now() - startTime < timeoutSeconds * 1000) \x7b
  try \x7b
    status = getPRStatus(...)
    if (failed > 0) return false
    if (pending === 0 && success > 0) return true
    sleep(10000)
  \x7d catch \x7b sleep(10000) \x7d
\x7d
return false
```
Only the 10-second sleeps advance modelled time, so the k-th status fetch
(0-based) happens at elapsed time `k * pollIntervalMs`, and the guard at
that fetch is `k * pollIntervalMs < timeoutMs`.  We recurse structurally on
the number of loop entries still allowed by the guard, which is
`pollCount timeoutMs = ceil(timeoutMs / pollIntervalMs)`; the lemma
`pollCount_spec` inside the C1 theorem states the exact equivalence of the
two guards.  A fetch result of `none` models a thrown status-fetch error
(the `catch` branch). -/

/-- `pollIntervalMs = 10000`, hard-coded at line 622. -/
def pollIntervalMs : Nat := 10000

/-- Number of loop entries permitted by the guard
`elapsed < timeoutMs` when elapsed time is `k * pollIntervalMs` at the k-th
entry: the guard holds iff `k < pollCount timeoutMs`. -/
def pollCount (timeoutMs : Nat) : Nat :=
  (timeoutMs + pollIntervalMs - 1) / pollIntervalMs

/-- The polling loop body of `waitForChecks`: `k` is the index of the next
status fetch, the second argument is the number of loop entries the time
guard still allows.  Budget 0 is the `return false` after the loop
(timeout). -/
def waitForChecksGo (fetch : Nat → Option CheckStates) (k : Nat) : Nat → Bool
  | 0 => false
  | Nat.succ budget =>
    match fetch k with
    | some st =>
      if 0 < st.failed then false
      else if st.pending = 0 ∧ 0 < st.success then true
      else waitForChecksGo fetch (k + 1) budget
    | none => waitForChecksGo fetch (k + 1) budget

/-- `PRManager.waitForChecks(prNumber, timeoutSeconds)`: polls
`getPRStatus` (modelled by `fetch`) every `pollIntervalMs` until failure,
success, or timeout. -/
def waitForChecks (fetch : Nat → Option CheckStates) (timeoutSeconds : Nat) : Bool :=
  waitForChecksGo fetch 0 (pollCount (timeoutSeconds * 1000))

/-! ## Loop configuration (`LoopConfig`, lines 10-17 and 45-53) -/

/-- The merge strategy enum of `LoopConfig.mergeStrategy`. -/
inductive MergeStrategy
  | squash
  | merge
  | rebase
deriving DecidableEq

/-- `Required<LoopConfig>`: the fully-populated configuration stored in
`this.config`.  `maxDuration` is in seconds and `maxCost` in cents. -/
structure LoopConfig where
  maxIterations : Nat
  maxDuration : Nat
  maxCost : Nat
  mergeStrategy : MergeStrategy
  completionSignal : String
  completionThreshold : Nat
deriving DecidableEq

/-- The defaults installed by the constructor (lines 45-52);
`maxIterations: 5, maxDuration: 0, maxCost: 0, mergeStrategy: 'squash',
completionSignal: 'ITERATION_COMPLETE', completionThreshold: 1`. -/
def defaultLoopConfig : LoopConfig :=
  LoopConfig.mk 5 0 0 MergeStrategy.squash "ITERATION_COMPLETE" 1

/-- The caller-supplied `LoopConfig`, every field optional; an absent field
is `none`. -/
structure UserLoopConfig where
  maxIterations : Option Nat
  maxDuration : Option Nat
  maxCost : Option Nat
  mergeStrategy : Option MergeStrategy
  completionSignal : Option String
  completionThreshold : Option Nat
deriving DecidableEq

/-- `Object.assign(this.config, userConfig)` (line 60): every field present
in `userConfig` overwrites the stored one, absent fields keep the stored
value. -/
def mergeConfig (c : LoopConfig) (u : UserLoopConfig) : LoopConfig :=
  LoopConfig.mk (u.maxIterations.getD c.maxIterations) (u.maxDuration.getD c.maxDuration)
    (u.maxCost.getD c.maxCost) (u.mergeStrategy.getD c.mergeStrategy)
    (u.completionSignal.getD c.completionSignal)
    (u.completionThreshold.getD c.completionThreshold)

/-! ## Iteration results and the external world -/

/-- `IterationResult` (lines 19-27), with cost in cents. -/
structure IterationResult where
  iterationNumber : Nat
  success : Bool
  cost : Nat
  summary : String
  prNumber : Option String
  changedFiles : List String
  error : Option String
deriving DecidableEq

/-- The fixed per-iteration cost estimate `0.05` USD (line 152), in cents. -/
def iterationCostCents : Nat := 5

/-- The observable state the iteration pipeline mutates through its
collaborators: the currently checked-out git branch, the two notes files
(`none` = file absent), and the records of commits, pushes, created PRs
(branch, title, body), merged PRs (id, strategy), closed PRs (id, reason)
and `git pull` invocations on main. -/
structure World where
  current : String
  notesFile : Option String
  sharedNotes : Option String
  commits : List String
  pushes : List String
  createdPRs : List (String × String × String)
  merged : List (String × MergeStrategy)
  closed : List (String × String)
  pulls : Nat
deriving DecidableEq

/-- Per-iteration inputs from the collaborators: the date string and random
salt used in the branch name, the locale timestamp used in the notes entry,
the AI summary (`none` = provider unavailable), the changed-file set
reported by `gitService.getChangedFiles()`, the outcome of
`prManager.waitForChecks`, and the PR number `createPR` would return. -/
structure IterEnv where
  dateStr : String
  salt : String
  localeTs : String
  aiSummary : Option String
  changedFiles : List String
  checksPass : Bool
  prNumber : String
deriving DecidableEq

/-! ## Notes ledger (lines 267-300) -/

/-- The hidden tail bound of `loadPreviousIterationNotes`: last 1000
characters. -/
def ledgerBound : Nat := 1000

/-- `content.substring(Math.max(0, content.length - k))`: the last `k`
characters of `s` (all of `s` when it is shorter). -/
def tailChars (k : Nat) (s : String) : String :=
  String.mk (s.data.drop (s.data.length - k))

/-- `loadPreviousIterationNotes` (lines 267-275): reads
`SHARED_TASK_NOTES.md` from the file service context directory and returns
its last `ledgerBound` characters, or the empty string when the file is
absent. -/
def loadPreviousIterationNotes (w : World) : String :=
  match w.sharedNotes with
  | some content => tailChars ledgerBound content
  | none => ""

/-- `result.summary.split('\n')[0]`: the prefix of the string up to (not
including) its first newline. -/
def firstLine (s : String) : String :=
  String.mk (s.data.takeWhile (fun c => c ≠ '\n'))

/-- `result.prNumber || 'N/A'` (JS truthiness: absent or empty gives
the fallback). -/
def prOrNA : Option String → String
  | none => "N/A"
  | some p => if p.isEmpty then "N/A" else p

/-- `result.changedFiles.join(', ') || 'None'`. -/
def joinOrNone (files : List String) : String :=
  let j := String.intercalate ", " files
  if j.isEmpty then "None" else j

/-- `toFixed(2)` rendering of a cent amount as dollars. -/
def fmtDollars (cents : Nat) : String :=
  toString (cents / 100) ++ "." ++
    (if cents % 100 < 10 then "0" ++ toString (cents % 100) else toString (cents % 100))

/-- The notes template of `saveIterationNotes` (lines 281-290). -/
def iterationNotes (n : Nat) (localeTs : String) (r : IterationResult) : String :=
  "\n## Iteration " ++ toString n ++
  "\n**Timestamp:** " ++ localeTs ++
  "\n**Status:** " ++ (if r.success then "✅ Success" else "❌ Failed") ++
  "\n**Cost:** $" ++ fmtDollars r.cost ++
  "\n**PR:** #" ++ prOrNA r.prNumber ++
  "\n**Summary:** " ++ firstLine r.summary ++
  "\n**Changed Files:** " ++ joinOrNone r.changedFiles ++
  "\n\n---"

/-- `saveIterationNotes` (lines 280-300): appends the entry to
`.vscode-loop-notes.md` in the workspace root, creating the file with a
`# Continuous Loop Notes` header when absent.  Note the target file differs
from the one `loadPreviousIterationNotes` reads. -/
def saveIterationNotes (n : Nat) (localeTs : String) (r : IterationResult) (w : World) : World :=
  let entry := iterationNotes n localeTs r
  match w.notesFile with
  | some content => { w with notesFile := some (content ++ entry) }
  | none => { w with notesFile := some ("# Continuous Loop Notes\n" ++ entry) }

/-! ## The iteration pipeline (`executeIteration`, lines 122-212)

The model covers the executions in which the collaborator calls themselves
succeed (branch creation, commit, push, PR creation, merge, close); the
outcome of the check wait and the availability of the AI provider are
inputs.  On such executions the `try/catch` of `executeIteration` never
fires, so the pipeline is a straight-line function. -/

/-- The branch name derived at lines 218-220:
`continuous-loop/iteration-N/DATE-SALT`. -/
def branchName (n : Nat) (dateStr salt : String) : String :=
  "continuous-loop/iteration-" ++ toString n ++ "/" ++ dateStr ++ "-" ++ salt

/-- The summary recorded for the iteration (lines 143-150): the AI summary,
or the fixed fallback when the provider returned nothing (JS-falsy). -/
def summaryOf (env : IterEnv) : String :=
  match env.aiSummary with
  | none => "Completed iteration without AI summary"
  | some s => if s.isEmpty then "Completed iteration without AI summary" else s

/-- The commit message of line 163:
`[Iteration N] ` followed by the first 50 characters of the first summary
line. -/
def commitMessage (n : Nat) (summary : String) : String :=
  "[Iteration " ++ toString n ++ "] " ++ (firstLine summary).take 50

/-- `executeIteration` (lines 122-212), for executions without collaborator
exceptions.  Steps in source order: create and check out the branch
(line 222, from whatever is currently checked out); compute the summary and
the fixed cost; read the changed-file set; if it is non-empty commit, push,
create the PR and wait for checks, then either merge + checkout main + pull
(checks passed) or close the PR and return early with
`success=false, error='PR checks failed'` (checks failed); finally append
the notes entry (with `result.success` still false at that point, line 203
runs before line 205) and return with `success=true`. -/
def executeIteration (cfg : LoopConfig) (n : Nat) (env : IterEnv) (w : World) :
    IterationResult × World :=
  let bn := branchName n env.dateStr env.salt
  let w1 := { w with current := bn }
  let summary := summaryOf env
  let cost := iterationCostCents
  let changed := env.changedFiles
  if changed.isEmpty then
    let saved : IterationResult := IterationResult.mk n false cost summary none changed none
    let w2 := saveIterationNotes n env.localeTs saved w1
    (IterationResult.mk n true cost summary none changed none, w2)
  else
    let msg := commitMessage n summary
    let w2 := { w1 with commits := w1.commits ++ [msg] }
    let w3 := { w2 with pushes := w2.pushes ++ [bn] }
    let pr := env.prNumber
    let w4 := { w3 with createdPRs := w3.createdPRs ++ [(bn, msg, summary)] }
    if env.checksPass then
      let w5 := { w4 with merged := w4.merged ++ [(pr, cfg.mergeStrategy)] }
      let w6 := { w5 with current := "main", pulls := w5.pulls + 1 }
      let saved : IterationResult := IterationResult.mk n false cost summary (some pr) changed none
      let w7 := saveIterationNotes n env.localeTs saved w6
      (IterationResult.mk n true cost summary (some pr) changed none, w7)
    else
      let w5 := { w4 with closed := w4.closed ++ [(pr, "Checks failed")] }
      (IterationResult.mk n false cost summary (some pr) changed (some "PR checks failed"), w5)

/-! ## The run loop (`run` / `shouldContinue`, lines 58-117 and 305-328) -/

/-- JS `haystack.includes(needle)` on char lists: the needle occurs as a
contiguous infix. -/
def includesFrom (needle : List Char) : List Char → Bool
  | [] => needle.isEmpty
  | c :: rest => needle.isPrefixOf (c :: rest) || includesFrom needle rest

/-- `result.summary.includes(this.config.completionSignal)` (line 95). -/
def strIncludes (s sub : String) : Bool :=
  includesFrom sub.data s.data

/-- The run-scoped mutable state of `ContinuousLoop`: the iteration
counter, the elapsed wall-clock time since `startTime` in milliseconds,
`totalCost` in cents, `consecutiveCompletionSignals` and `isRunning`. -/
structure RunState where
  iterations : Nat
  elapsedMs : Nat
  totalCost : Nat
  consecutiveCompletionSignals : Nat
  isRunning : Bool
deriving DecidableEq

/-- `shouldContinue` (lines 305-328): false once iterations reach a nonzero
`maxIterations`, or elapsed seconds reach a nonzero `maxDuration`
(`elapsedMs / 1000 ≥ maxDuration` is stated as
`maxDuration * 1000 ≤ elapsedMs`, the exact real-division comparison of the
source), or `totalCost` reaches a nonzero `maxCost`; otherwise it returns
`isRunning`. -/
def shouldContinue (cfg : LoopConfig) (s : RunState) : Bool :=
  if 0 < cfg.maxIterations ∧ cfg.maxIterations ≤ s.iterations then false
  else if 0 < cfg.maxDuration ∧ cfg.maxDuration * 1000 ≤ s.elapsedMs then false
  else if 0 < cfg.maxCost ∧ cfg.maxCost ≤ s.totalCost then false
  else s.isRunning

/-- Abstract result of one `executeIteration` call as seen by the `run`
loop: a successful result with its cost and summary, a result with
`success=false`, or a thrown error (caught at line 109). -/
inductive IterOutcome
  | ok (cost : Nat) (summary : String)
  | iterFailed (err : String)
  | thrown (err : String)
deriving DecidableEq

/-- Why the `while` of `run` stopped: `shouldContinue` returned false
(a cap was reached), the `break` at line 101 fired (task complete), or the
model's fuel ran out (never the case in the theorems below, which supply
enough fuel for the configured caps). -/
inductive StopReason
  | capReached
  | taskComplete
  | outOfFuel
deriving DecidableEq

/-- The `while (this.shouldContinue())` loop of `run` (lines 81-112).
`outcomes n` is what the `n`-th `executeIteration` call (1-based) produces,
`durMs n` the wall-clock time it consumes.  On a successful outcome the
cost is accumulated, then the summary is tested for the completion signal:
a hit increments `consecutiveCompletionSignals` and breaks once the
threshold is reached, a miss resets the counter to 0.  A failed or thrown
iteration only logs — it touches neither the cost nor the counter. -/
def runLoop (cfg : LoopConfig) (outcomes : Nat → IterOutcome) (durMs : Nat → Nat) :
    Nat → RunState → RunState × StopReason
  | 0, s => (s, StopReason.outOfFuel)
  | Nat.succ fuel, s =>
    if shouldContinue cfg s then
      let n := s.iterations + 1
      let s1 := { s with iterations := n, elapsedMs := s.elapsedMs + durMs n }
      match outcomes n with
      | IterOutcome.ok cost summary =>
        let s2 := { s1 with totalCost := s1.totalCost + cost }
        if strIncludes summary cfg.completionSignal then
          let s3 := { s2 with
            consecutiveCompletionSignals := s2.consecutiveCompletionSignals + 1 }
          if cfg.completionThreshold ≤ s3.consecutiveCompletionSignals then
            (s3, StopReason.taskComplete)
          else
            runLoop cfg outcomes durMs fuel s3
        else
          runLoop cfg outcomes durMs fuel { s2 with consecutiveCompletionSignals := 0 }
      | IterOutcome.iterFailed _ => runLoop cfg outcomes durMs fuel s1
      | IterOutcome.thrown _ => runLoop cfg outcomes durMs fuel s1
    else
      (s, StopReason.capReached)

/-- The configuration-validation error message of line 64. -/
def configErrorMsg : String :=
  "Must specify at least one limit: maxIterations, maxDuration, or maxCost"

/-- `run(prompt, userConfig)` (lines 58-117): first `Object.assign` merges
the user configuration into the stored one (this happens before
validation), then the all-caps-zero check throws, otherwise the run state
is reset and the loop executes.  The second component is the stored
`this.config` after the call — the instance keeps it for later runs. -/
def run (stored : LoopConfig) (userConfig : UserLoopConfig) (outcomes : Nat → IterOutcome)
    (durMs : Nat → Nat) (fuel : Nat) :
    Except String (RunState × StopReason) × LoopConfig :=
  let cfg := mergeConfig stored userConfig
  if cfg.maxIterations = 0 ∧ cfg.maxDuration = 0 ∧ cfg.maxCost = 0 then
    (Except.error configErrorMsg, cfg)
  else
    (Except.ok (runLoop cfg outcomes durMs fuel (RunState.mk 0 0 0 0 true)), cfg)

/-! ## Claims -/

/-- C1: `waitForChecks` polls check statuses and (1) the time guard
`k * pollIntervalMs < timeoutMs` at the k-th fetch is exactly the budget
guard `k < pollCount timeoutMs` used by the model; (2) as soon as a fetched
status has `failed > 0` the poll returns `false` immediately, regardless of
any later fetch; (3) when a fetched status has `pending = 0`,
`success ≥ 1` and `failed = 0` the poll returns `true` immediately;
(4) once the time budget is exhausted the poll returns `false`; (5) a
status-fetch error never terminates the poll — the loop simply moves on to
the next poll after the interval; (6) whenever the poll returns `true`,
some fetch within the budget produced a status with `pending = 0`,
`success ≥ 1` and `failed = 0`. -/
theorem waitForChecks_spec :
    (∀ t k, k * pollIntervalMs < t ↔ k < pollCount t)
    ∧ (∀ fetch k b st, fetch k = some st → 0 < st.failed →
        waitForChecksGo fetch k (b + 1) = false)
    ∧ (∀ fetch k b st, fetch k = some st → st.failed = 0 → st.pending = 0 →
        0 < st.success → waitForChecksGo fetch k (b + 1) = true)
    ∧ (∀ (fetch : Nat → Option CheckStates) k, waitForChecksGo fetch k 0 = false)
    ∧ (∀ fetch k b, fetch k = none →
        waitForChecksGo fetch k (b + 1) = waitForChecksGo fetch (k + 1) b)
    ∧ (∀ fetch k b, waitForChecksGo fetch k b = true →
        ∃ j st, k ≤ j ∧ j < k + b ∧ fetch j = some st ∧
          st.pending = 0 ∧ 0 < st.success ∧ st.failed = 0) := by
  refine ⟨?_, ?_, ?_, ?_, ?_, ?_⟩
  · intro t k
    simp only [pollCount, pollIntervalMs]
    omega
  · intro fetch k b st hfetch hfail
    simp [waitForChecksGo, hfetch, hfail]
  · intro fetch k b st hfetch hf hp hs
    simp [waitForChecksGo, hfetch, hf, hp, hs]
  · intro fetch k
    rfl
  · intro fetch k b hfetch
    simp [waitForChecksGo, hfetch]
  · intro fetch k b
    induction b generalizing k with
    | zero =>
      intro h
      simp [waitForChecksGo] at h
    | succ b ih =>
      intro h
      cases hf : fetch k with
      | some st =>
        by_cases hfail : 0 < st.failed
        · simp [waitForChecksGo, hf, hfail] at h
        · by_cases hps : st.pending = 0 ∧ 0 < st.success
          · exact ⟨k, st, le_refl k, by omega, hf, hps.1, hps.2, by omega⟩
          · simp [waitForChecksGo, hf, hfail, hps] at h
            obtain ⟨j, st2, hkj, hjb, hrest⟩ := ih (k + 1) h
            exact ⟨j, st2, by omega, by omega, hrest⟩
      | none =>
        simp [waitForChecksGo, hf] at h
        obtain ⟨j, st2, hkj, hjb, hrest⟩ := ih (k + 1) h
        exact ⟨j, st2, by omega, by omega, hrest⟩

/-- C1 witness: the fail-fast clause applied to a concrete fetch whose
first status has one failed check. -/
theorem waitForChecks_spec_witness :
    (fun _ : Nat => some (CheckStates.mk 0 0 1)) 0 = some (CheckStates.mk 0 0 1)
    ∧ 0 < (CheckStates.mk 0 0 1).failed
    ∧ waitForChecksGo (fun _ : Nat => some (CheckStates.mk 0 0 1)) 0 (2 + 1) = false :=
  ⟨rfl, by decide,
    waitForChecks_spec.2.1 (fun _ : Nat => some (CheckStates.mk 0 0 1)) 0 2
      (CheckStates.mk 0 0 1) rfl (by decide)⟩

/-- C9: `getPRStatus` counts any check whose `status` is `completed` in the
success bucket, regardless of its `conclusion` — in particular a check that
completed with conclusion `failure` increments `success` — and the failed
bucket is incremented exactly for records that are neither `completed`,
`in_progress`, `queued`, nor conclusion-less (JS-falsy conclusion), but
whose conclusion differs from `success`. -/
theorem getPRStatus_buckets :
    computeCheckStates [RawCheck.mk "completed" (some "failure")] = CheckStates.mk 0 1 0
    ∧ (∀ c, c.status = "completed" → classifyCheck c = CheckBucket.success)
    ∧ (∀ acc c, classifyCheck c = CheckBucket.failed →
        bumpCheckStates acc c = CheckStates.mk acc.pending acc.success (acc.failed + 1))
    ∧ (∀ c, classifyCheck c = CheckBucket.failed ↔
        (c.status ≠ "completed" ∧ c.status ≠ "in_progress" ∧ c.status ≠ "queued" ∧
         conclusionFalsy c.conclusion = false ∧ c.conclusion ≠ some "success")) := by
  refine ⟨by decide, ?_, ?_, ?_⟩
  · intro c hc
    simp [classifyCheck, hc]
  · intro acc c h
    cases acc
    simp [bumpCheckStates, h]
  · intro c
    simp only [classifyCheck]
    split_ifs with h1 h2
    · simp only [reduceCtorEq, false_iff]
      tauto
    · simp only [reduceCtorEq, false_iff]
      rintro ⟨hnc, hni, hnq, hcf, hns⟩
      rcases h2 with h | h | h
      · exact hni h
      · exact hnq h
      · simp [hcf] at h
    · push_neg at h1 h2
      simp only [true_iff]
      refine ⟨h1.2, h2.1, h2.2.1, ?_, h1.1⟩
      cases hcc : conclusionFalsy c.conclusion
      · rfl
      · exact absurd hcc h2.2.2

/-- C9 witness: the failed-bucket clause applied to a concrete record with
an unrecognized status and a non-success conclusion. -/
theorem getPRStatus_buckets_witness :
    classifyCheck (RawCheck.mk "stale" (some "timed_out")) = CheckBucket.failed
    ∧ bumpCheckStates (CheckStates.mk 0 0 0) (RawCheck.mk "stale" (some "timed_out"))
        = CheckStates.mk 0 0 (0 + 1) :=
  ⟨by decide,
    getPRStatus_buckets.2.2.1 (CheckStates.mk 0 0 0) (RawCheck.mk "stale" (some "timed_out"))
      (by decide)⟩

/-- C6 (code bug): on a fresh workspace (neither notes file exists),
appending one iteration entry through `saveIterationNotes` writes it to
`.vscode-loop-notes.md`, yet `loadPreviousIterationNotes` — the ledger-tail
read feeding the next prompt — still returns the empty string, because it
reads `SHARED_TASK_NOTES.md`, which the loop never writes.  So the tail
does not end with the (nonempty) most recently appended entry. -/
theorem ledger_readTail_misses_appends :
    loadPreviousIterationNotes
        (saveIterationNotes 1 "1/1/2025, 1:00:00 AM"
          (IterationResult.mk 1 false iterationCostCents "did work" none ["a.ts"] none)
          (World.mk "main" none none [] [] [] [] [] 0)) = ""
    ∧ (saveIterationNotes 1 "1/1/2025, 1:00:00 AM"
          (IterationResult.mk 1 false iterationCostCents "did work" none ["a.ts"] none)
          (World.mk "main" none none [] [] [] [] [] 0)).notesFile
        = some ("# Continuous Loop Notes\n"
            ++ iterationNotes 1 "1/1/2025, 1:00:00 AM"
                 (IterationResult.mk 1 false iterationCostCents "did work" none ["a.ts"] none))
    ∧ iterationNotes 1 "1/1/2025, 1:00:00 AM"
        (IterationResult.mk 1 false iterationCostCents "did work" none ["a.ts"] none) ≠ "" := by
  refine ⟨rfl, rfl, by decide⟩

/-- C4: when checks fail for a submitted review, the iteration closes the
PR with reason "Checks failed", returns `success=false` with
`error="PR checks failed"`, performs no merge, and appends no ledger entry
(neither notes file changes — `saveIterationNotes` is not reached on this
path). -/
theorem executeIteration_checksFailed (cfg : LoopConfig) (n : Nat) (env : IterEnv)
    (w : World) (hch : env.changedFiles ≠ []) (hcp : env.checksPass = false) :
    (executeIteration cfg n env w).1.success = false
    ∧ (executeIteration cfg n env w).1.error = some "PR checks failed"
    ∧ (executeIteration cfg n env w).2.merged = w.merged
    ∧ (executeIteration cfg n env w).2.notesFile = w.notesFile
    ∧ (executeIteration cfg n env w).2.sharedNotes = w.sharedNotes
    ∧ (executeIteration cfg n env w).2.closed = w.closed ++ [(env.prNumber, "Checks failed")] := by
  have hne : env.changedFiles.isEmpty = false := by
    cases h : env.changedFiles with
    | nil => exact absurd h hch
    | cons a l => rfl
  simp [executeIteration, hne, hcp]

/-- C4 witness: a concrete iteration with one changed file whose checks
fail. -/
theorem executeIteration_checksFailed_witness :
    (IterEnv.mk "2025-01-01" "ab12" "t" (some "did work") ["a.ts"] false "42").changedFiles ≠ []
    ∧ (IterEnv.mk "2025-01-01" "ab12" "t" (some "did work") ["a.ts"] false "42").checksPass = false
    ∧ ((executeIteration defaultLoopConfig 1
          (IterEnv.mk "2025-01-01" "ab12" "t" (some "did work") ["a.ts"] false "42")
          (World.mk "main" none none [] [] [] [] [] 0)).1.success = false
       ∧ (executeIteration defaultLoopConfig 1
          (IterEnv.mk "2025-01-01" "ab12" "t" (some "did work") ["a.ts"] false "42")
          (World.mk "main" none none [] [] [] [] [] 0)).1.error = some "PR checks failed"
       ∧ (executeIteration defaultLoopConfig 1
          (IterEnv.mk "2025-01-01" "ab12" "t" (some "did work") ["a.ts"] false "42")
          (World.mk "main" none none [] [] [] [] [] 0)).2.merged = []
       ∧ (executeIteration defaultLoopConfig 1
          (IterEnv.mk "2025-01-01" "ab12" "t" (some "did work") ["a.ts"] false "42")
          (World.mk "main" none none [] [] [] [] [] 0)).2.notesFile = none
       ∧ (executeIteration defaultLoopConfig 1
          (IterEnv.mk "2025-01-01" "ab12" "t" (some "did work") ["a.ts"] false "42")
          (World.mk "main" none none [] [] [] [] [] 0)).2.sharedNotes = none
       ∧ (executeIteration defaultLoopConfig 1
          (IterEnv.mk "2025-01-01" "ab12" "t" (some "did work") ["a.ts"] false "42")
          (World.mk "main" none none [] [] [] [] [] 0)).2.closed = [] ++ [("42", "Checks failed")]) :=
  ⟨by decide, rfl,
    executeIteration_checksFailed defaultLoopConfig 1
      (IterEnv.mk "2025-01-01" "ab12" "t" (some "did work") ["a.ts"] false "42")
      (World.mk "main" none none [] [] [] [] [] 0) (by decide) rfl⟩

/-- C5: when the changed-file set is empty, no commit, push or review
submission occurs (no PR number is recorded), the iteration result has
`success=true`, and a ledger entry is still appended to the notes file for
the iteration. -/
theorem executeIteration_noChanges (cfg : LoopConfig) (n : Nat) (env : IterEnv)
    (w : World) (hch : env.changedFiles = []) :
    (executeIteration cfg n env w).1.success = true
    ∧ (executeIteration cfg n env w).1.prNumber = none
    ∧ (executeIteration cfg n env w).2.commits = w.commits
    ∧ (executeIteration cfg n env w).2.pushes = w.pushes
    ∧ (executeIteration cfg n env w).2.createdPRs = w.createdPRs
    ∧ (executeIteration cfg n env w).2.merged = w.merged
    ∧ (executeIteration cfg n env w).2.notesFile
        = some ((w.notesFile.getD "# Continuous Loop Notes\n")
            ++ iterationNotes n env.localeTs
                 (IterationResult.mk n false iterationCostCents (summaryOf env) none [] none)) := by
  cases hnf : w.notesFile with
  | none => simp [executeIteration, hch, saveIterationNotes, hnf]
  | some c => simp [executeIteration, hch, saveIterationNotes, hnf]

/-- C5 witness: a concrete no-change iteration on a fresh workspace. -/
theorem executeIteration_noChanges_witness :
    (IterEnv.mk "2025-01-01" "ab12" "t" none [] true "42").changedFiles = []
    ∧ ((executeIteration defaultLoopConfig 1
          (IterEnv.mk "2025-01-01" "ab12" "t" none [] true "42")
          (World.mk "main" none none [] [] [] [] [] 0)).1.success = true
       ∧ (executeIteration defaultLoopConfig 1
          (IterEnv.mk "2025-01-01" "ab12" "t" none [] true "42")
          (World.mk "main" none none [] [] [] [] [] 0)).1.prNumber = none
       ∧ (executeIteration defaultLoopConfig 1
          (IterEnv.mk "2025-01-01" "ab12" "t" none [] true "42")
          (World.mk "main" none none [] [] [] [] [] 0)).2.commits = []
       ∧ (executeIteration defaultLoopConfig 1
          (IterEnv.mk "2025-01-01" "ab12" "t" none [] true "42")
          (World.mk "main" none none [] [] [] [] [] 0)).2.pushes = []
       ∧ (executeIteration defaultLoopConfig 1
          (IterEnv.mk "2025-01-01" "ab12" "t" none [] true "42")
          (World.mk "main" none none [] [] [] [] [] 0)).2.createdPRs = []
       ∧ (executeIteration defaultLoopConfig 1
          (IterEnv.mk "2025-01-01" "ab12" "t" none [] true "42")
          (World.mk "main" none none [] [] [] [] [] 0)).2.merged = []
       ∧ (executeIteration defaultLoopConfig 1
          (IterEnv.mk "2025-01-01" "ab12" "t" none [] true "42")
          (World.mk "main" none none [] [] [] [] [] 0)).2.notesFile
          = some ((Option.getD (none : Option String) "# Continuous Loop Notes\n")
              ++ iterationNotes 1 "t"
                   (IterationResult.mk 1 false iterationCostCents
                     (summaryOf (IterEnv.mk "2025-01-01" "ab12" "t" none [] true "42"))
                     none [] none))) :=
  ⟨rfl,
    executeIteration_noChanges defaultLoopConfig 1
      (IterEnv.mk "2025-01-01" "ab12" "t" none [] true "42")
      (World.mk "main" none none [] [] [] [] [] 0) rfl⟩

/-- C8 counterexample: starting from trunk (`main` checked out), an
iteration with one changed file whose checks fail leaves the working
checkout on that iteration's branch — `executeIteration` never returns to
trunk on the checks-failed path, so the next iteration's `createBranch`
(`git checkout -b`, which branches from the current checkout) does not
execute from the trunk position.  The same reachable-state refutation
applies after a no-change iteration. -/
theorem createBranch_not_from_trunk_cex :
    (executeIteration defaultLoopConfig 1
        (IterEnv.mk "2025-01-01" "ab12" "t" (some "did work") ["a.ts"] false "42")
        (World.mk "main" none none [] [] [] [] [] 0)).2.current ≠ "main" := by
  decide

/-- C8 amended: the branch for an iteration is created from whatever is
currently checked out, and the checkout after an iteration is trunk
(`main`) exactly when the iteration committed changes and its checks
passed (the merge path runs `git checkout main`); after a checks-failed
iteration or a no-change iteration the checkout remains on that
iteration's own branch. -/
theorem executeIteration_current (cfg : LoopConfig) (n : Nat) (env : IterEnv) (w : World) :
    (executeIteration cfg n env w).2.current
      = if env.changedFiles.isEmpty = false ∧ env.checksPass = true then "main"
        else branchName n env.dateStr env.salt := by
  cases he : env.changedFiles.isEmpty with
  | true =>
    cases hnf : w.notesFile with
    | none => simp [executeIteration, List.isEmpty_iff.mp he, saveIterationNotes, hnf]
    | some c => simp [executeIteration, List.isEmpty_iff.mp he, saveIterationNotes, hnf]
  | false =>
    cases hcp : env.checksPass with
    | true =>
      cases hnf : w.notesFile with
      | none => simp [executeIteration, he, hcp, saveIterationNotes, hnf]
      | some c => simp [executeIteration, he, hcp, saveIterationNotes, hnf]
    | false => simp [executeIteration, he, hcp]

/-- C2 counterexample: with `maxIterations=2`, signal `DONE` and threshold
2, a run whose first iteration succeeds with a signaling summary (counter
becomes 1) and whose second iteration fails ends with the counter still at
1 — the failed iteration did not reset it to 0, contrary to the claim. -/
theorem consecutiveSignals_failed_iteration_cex :
    (runLoop (LoopConfig.mk 2 0 0 MergeStrategy.squash "DONE" 2)
        (fun n => if n = 1 then IterOutcome.ok 5 "work DONE" else IterOutcome.iterFailed "boom")
        (fun _ => 0) 3 (RunState.mk 0 0 0 0 true)).1.consecutiveCompletionSignals = 1 := by
  decide

/-- C2 amended: the counter dynamics of the run loop.  On an iteration pass
from a state the loop continues from: (1) a successful outcome whose
summary lacks the completion signal resets
`consecutiveCompletionSignals` to 0; (2) an iteration returning
`success=false` leaves the counter unchanged (it does not reset it);
(3) a thrown iteration likewise leaves it unchanged; (4) a successful
signaling outcome increments it, breaking the loop when the threshold is
reached. -/
theorem consecutiveSignals_transitions (cfg : LoopConfig) (outcomes : Nat → IterOutcome)
    (durMs : Nat → Nat) (fuel : Nat) (s : RunState) (hsc : shouldContinue cfg s = true) :
    (∀ c sum, outcomes (s.iterations + 1) = IterOutcome.ok c sum →
       strIncludes sum cfg.completionSignal = false →
       runLoop cfg outcomes durMs (fuel + 1) s
         = runLoop cfg outcomes durMs fuel
             (RunState.mk (s.iterations + 1) (s.elapsedMs + durMs (s.iterations + 1))
               (s.totalCost + c) 0 s.isRunning))
    ∧ (∀ e, outcomes (s.iterations + 1) = IterOutcome.iterFailed e →
       runLoop cfg outcomes durMs (fuel + 1) s
         = runLoop cfg outcomes durMs fuel
             (RunState.mk (s.iterations + 1) (s.elapsedMs + durMs (s.iterations + 1))
               s.totalCost s.consecutiveCompletionSignals s.isRunning))
    ∧ (∀ e, outcomes (s.iterations + 1) = IterOutcome.thrown e →
       runLoop cfg outcomes durMs (fuel + 1) s
         = runLoop cfg outcomes durMs fuel
             (RunState.mk (s.iterations + 1) (s.elapsedMs + durMs (s.iterations + 1))
               s.totalCost s.consecutiveCompletionSignals s.isRunning))
    ∧ (∀ c sum, outcomes (s.iterations + 1) = IterOutcome.ok c sum →
       strIncludes sum cfg.completionSignal = true →
       (cfg.completionThreshold ≤ s.consecutiveCompletionSignals + 1 →
          runLoop cfg outcomes durMs (fuel + 1) s
            = (RunState.mk (s.iterations + 1) (s.elapsedMs + durMs (s.iterations + 1))
                (s.totalCost + c) (s.consecutiveCompletionSignals + 1) s.isRunning,
               StopReason.taskComplete))
       ∧ (¬ cfg.completionThreshold ≤ s.consecutiveCompletionSignals + 1 →
          runLoop cfg outcomes durMs (fuel + 1) s
            = runLoop cfg outcomes durMs fuel
                (RunState.mk (s.iterations + 1) (s.elapsedMs + durMs (s.iterations + 1))
                  (s.totalCost + c) (s.consecutiveCompletionSignals + 1) s.isRunning))) := by
  cases s
  refine ⟨?_, ?_, ?_, ?_⟩
  · intro c sum hout hmiss
    simp [runLoop, hsc, hout, hmiss]
  · intro e hout
    simp [runLoop, hsc, hout]
  · intro e hout
    simp [runLoop, hsc, hout]
  · intro c sum hout hhit
    constructor
    · intro hth
      simp [runLoop, hsc, hout, hhit, hth]
    · intro hth
      simp [runLoop, hsc, hout, hhit, hth]

/-- C2 witness: the failed-iteration clause applied at a concrete state
with a positive counter: the counter value 1 is carried over unchanged. -/
theorem consecutiveSignals_transitions_witness :
    shouldContinue (LoopConfig.mk 2 0 0 MergeStrategy.squash "DONE" 2)
        (RunState.mk 1 0 5 1 true) = true
    ∧ (fun _ : Nat => IterOutcome.iterFailed "boom") (1 + 1) = IterOutcome.iterFailed "boom"
    ∧ runLoop (LoopConfig.mk 2 0 0 MergeStrategy.squash "DONE" 2)
        (fun _ : Nat => IterOutcome.iterFailed "boom") (fun _ => 0) (1 + 1)
        (RunState.mk 1 0 5 1 true)
      = runLoop (LoopConfig.mk 2 0 0 MergeStrategy.squash "DONE" 2)
          (fun _ : Nat => IterOutcome.iterFailed "boom") (fun _ => 0) 1
          (RunState.mk (1 + 1) (0 + 0) 5 1 true) :=
  ⟨by decide, rfl,
    (consecutiveSignals_transitions (LoopConfig.mk 2 0 0 MergeStrategy.squash "DONE" 2)
        (fun _ : Nat => IterOutcome.iterFailed "boom") (fun _ => 0) 1
        (RunState.mk 1 0 5 1 true) (by decide)).2.1 "boom" rfl⟩

/-- C3: `run` throws the configuration error exactly when the merged
configuration has all three caps at zero; the error is raised before the
loop runs — in the all-zero case the result does not depend on the
per-iteration outcomes, durations or fuel at all, so zero iterations
execute and no per-iteration side effect occurs — and no other error
escapes `run` (with any other configuration the result is `Except.ok`;
per-iteration failures and thrown errors are `IterOutcome` values the loop
consumes). -/
theorem run_config_validation (stored : LoopConfig) (u : UserLoopConfig)
    (outcomes : Nat → IterOutcome) (durMs : Nat → Nat) (fuel : Nat) :
    (∀ e, (run stored u outcomes durMs fuel).1 = Except.error e ↔
       ((mergeConfig stored u).maxIterations = 0 ∧ (mergeConfig stored u).maxDuration = 0
        ∧ (mergeConfig stored u).maxCost = 0 ∧ e = configErrorMsg))
    ∧ ((mergeConfig stored u).maxIterations = 0 ∧ (mergeConfig stored u).maxDuration = 0
        ∧ (mergeConfig stored u).maxCost = 0 →
       ∀ (outcomes2 : Nat → IterOutcome) (durMs2 : Nat → Nat) (fuel2 : Nat),
         (run stored u outcomes durMs fuel).1 = (run stored u outcomes2 durMs2 fuel2).1) := by
  constructor
  · intro e
    by_cases hz : (mergeConfig stored u).maxIterations = 0
        ∧ (mergeConfig stored u).maxDuration = 0 ∧ (mergeConfig stored u).maxCost = 0
    · simp only [run]
      rw [if_pos hz]
      show Except.error configErrorMsg = Except.error e ↔ _
      constructor
      · intro h
        injection h with h
        exact ⟨hz.1, hz.2.1, hz.2.2, h.symm⟩
      · rintro ⟨-, -, -, rfl⟩
        rfl
    · simp only [run]
      rw [if_neg hz]
      show Except.ok _ = Except.error e ↔ _
      constructor
      · intro h
        simp at h
      · rintro ⟨h1, h2, h3, -⟩
        exact absurd ⟨h1, h2, h3⟩ hz
  · intro hz outcomes2 durMs2 fuel2
    simp only [run]
    rw [if_pos hz, if_pos hz]

/-- C3 witness: the rejection clause applied to a user configuration that
sets `maxIterations` to 0 on top of the defaults (whose duration and cost
caps are already 0). -/
theorem run_config_validation_witness :
    ((mergeConfig defaultLoopConfig
        (UserLoopConfig.mk (some 0) none none none none none)).maxIterations = 0
      ∧ (mergeConfig defaultLoopConfig
          (UserLoopConfig.mk (some 0) none none none none none)).maxDuration = 0
      ∧ (mergeConfig defaultLoopConfig
          (UserLoopConfig.mk (some 0) none none none none none)).maxCost = 0
      ∧ configErrorMsg = configErrorMsg)
    ∧ (run defaultLoopConfig (UserLoopConfig.mk (some 0) none none none none none)
        (fun _ => IterOutcome.ok 5 "x") (fun _ => 0) 3).1 = Except.error configErrorMsg :=
  ⟨⟨by decide, by decide, by decide, rfl⟩,
    ((run_config_validation defaultLoopConfig (UserLoopConfig.mk (some 0) none none none none none)
        (fun _ => IterOutcome.ok 5 "x") (fun _ => 0) 3).1 configErrorMsg).mpr
      ⟨by decide, by decide, by decide, rfl⟩⟩

/-- C7: Scenario B — `maxIterations=3`, `completionThreshold=2`, every
iteration succeeding with a summary containing the completion signal: the
run stops with reason task-complete immediately after iteration 2; exactly
2 iterations execute (final state: 2 iterations, 10 cents, counter 2), not
3. -/
theorem run_scenarioB :
    run defaultLoopConfig (UserLoopConfig.mk (some 3) none none none none (some 2))
      (fun _ => IterOutcome.ok iterationCostCents "Done. ITERATION_COMPLETE")
      (fun _ => 0) 4
      = (Except.ok (RunState.mk 2 0 10 2 true, StopReason.taskComplete),
         LoopConfig.mk 3 0 0 MergeStrategy.squash "ITERATION_COMPLETE" 2) := by
  rfl

/-- C10: `run` merges the user configuration into the instance's stored
configuration and never restores the defaults: after a first run whose
user configuration set `maxIterations`, a second run that omits the field
still runs with (and stores) the first call's value rather than the
constructor default — the effective configuration is not a per-run
immutable input. -/
theorem run_config_persistence (stored : LoopConfig) (u1 u2 : UserLoopConfig)
    (o1 o2 : Nat → IterOutcome) (d1 d2 : Nat → Nat) (f1 f2 : Nat) (v : Nat)
    (h1 : u1.maxIterations = some v) (h2 : u2.maxIterations = none) :
    (run stored u1 o1 d1 f1).2 = mergeConfig stored u1
    ∧ ((run (run stored u1 o1 d1 f1).2 u2 o2 d2 f2).2).maxIterations = v := by
  have hsnd : ∀ (c : LoopConfig) (u : UserLoopConfig) (o : Nat → IterOutcome)
      (d : Nat → Nat) (f : Nat), (run c u o d f).2 = mergeConfig c u := by
    intro c u o d f
    simp only [run]
    split <;> rfl
  refine ⟨hsnd stored u1 o1 d1 f1, ?_⟩
  rw [hsnd, hsnd]
  simp [mergeConfig, h1, h2]

/-- C10 witness: first run sets `maxIterations=3`, second run omits it; the
second run's stored configuration keeps 3, which differs from the
constructor default 5. -/
theorem run_config_persistence_witness :
    (UserLoopConfig.mk (some 3) none none none none none).maxIterations = some 3
    ∧ (UserLoopConfig.mk none none none none none none).maxIterations = none
    ∧ ((run defaultLoopConfig (UserLoopConfig.mk (some 3) none none none none none)
          (fun _ => IterOutcome.ok 5 "x") (fun _ => 0) 4).2
        = mergeConfig defaultLoopConfig (UserLoopConfig.mk (some 3) none none none none none)
       ∧ ((run (run defaultLoopConfig (UserLoopConfig.mk (some 3) none none none none none)
              (fun _ => IterOutcome.ok 5 "x") (fun _ => 0) 4).2
            (UserLoopConfig.mk none none none none none none)
            (fun _ => IterOutcome.ok 5 "x") (fun _ => 0) 4).2).maxIterations = 3)
    ∧ defaultLoopConfig.maxIterations ≠ 3 :=
  ⟨rfl, rfl,
    run_config_persistence defaultLoopConfig
      (UserLoopConfig.mk (some 3) none none none none none)
      (UserLoopConfig.mk none none none none none none)
      (fun _ => IterOutcome.ok 5 "x") (fun _ => IterOutcome.ok 5 "x")
      (fun _ => 0) (fun _ => 0) 4 4 3 rfl rfl,
    by decide⟩
